import Mathlib

/-!
Verification development for the account-pool gateway.

Each section embeds one part of the source code as executable Lean
definitions and proves the specified properties about them.

Conventions of the shallow embedding:
- Python dict-shaped messages are modelled by the `Msg` structure
  (only the `role` / `content` keys are consulted by the embedded code;
  `content` is modelled in its text form, the branch `str(content)` of
  `_normalize_message_text`).
- The MD5 digest (`hashlib.md5(...).hexdigest()`, an external library
  call) is an explicit function parameter `digest`; every key the code
  computes is `digest` applied to the joined preimage string, exactly as
  in `_hash_key`.
- Exceptions are modelled with `Except`.
-/

/-! ## core/message.py -/

structure Msg where
  role : String
  content : String
deriving DecidableEq, Repr

/-- ASCII whitespace recognizer for the model of Python `str.strip()`. -/
def isSpaceChar (c : Char) : Bool :=
  c = ' ' || c = '\t' || c = '\n' || c = '\r' || c = Char.ofNat 11 || c = Char.ofNat 12

/-- One character of the model of Python `str.lower()` (ASCII case map). -/
def lowerChar (c : Char) : Char :=
  if 65 ≤ c.toNat && c.toNat ≤ 90 then Char.ofNat (c.toNat + 32) else c

/-- Embeds `_normalize_message_text` (string branch): `text.strip().lower()`,
with `strip`/`lower` modelled at ASCII level. -/
def normalize_message_text (content : String) : String :=
  String.mk ((((content.data.dropWhile isSpaceChar).reverse.dropWhile isSpaceChar).reverse).map lowerChar)

/-- Embeds `_hash_key`: join the parts with a bar separator, put the
client identifier (when nonempty) in front, and digest the result. -/
def hash_key (digest : String → String) (parts : List String) (client_identifier : String) : String :=
  let joined := String.intercalate "|" parts
  let joined := if client_identifier ≠ "" then client_identifier ++ "|" ++ joined else joined
  digest joined

/-- Helper for `_truncate_messages_to_nth_user`: scans the list, counting
down the user messages still wanted; `some p` is the portion of the list
up to and including the n-th user message, `none` means fewer than n user
messages were found. -/
def truncGo (k : Nat) : List Msg → Option (List Msg)
  | [] => none
  | m :: rest =>
    if m.role = "user" then
      if k ≤ 1 then some [m]
      else (truncGo (k - 1) rest).map (m :: ·)
    else (truncGo k rest).map (m :: ·)

/-- Embeds `_truncate_messages_to_nth_user`: the messages up to and
including the `user_index_1based`-th user message; the empty list when
the index is 0, the original list when there are fewer user messages. -/
def truncate_messages_to_nth_user (messages : List Msg) (user_index_1based : Nat) : List Msg :=
  if user_index_1based = 0 then []
  else (truncGo user_index_1based messages).getD messages

/-- Embeds `sum(1 for m in messages if m.get("role") == "user")`. -/
def userCount (messages : List Msg) : Nat :=
  messages.countP (fun m => m.role = "user")

/-- The `f"{role}:{text}"` part built for one message in
`get_conversation_keys`. -/
def msgPart (m : Msg) : String :=
  m.role ++ ":" ++ normalize_message_text m.content

/-- Embeds `get_conversation_keys`, returning
`(lookup_key, store_key, force_new)`. -/
def get_conversation_keys (digest : String → String) (messages : List Msg)
    (client_identifier : String) : String × String × Bool :=
  if messages = [] then
    let empty := if client_identifier ≠ "" then client_identifier ++ ":empty" else "empty"
    (empty, empty, true)
  else
    let user_count := userCount messages
    let store_msgs := truncate_messages_to_nth_user messages user_count
    let store_key := hash_key digest (store_msgs.map msgPart) client_identifier
    if user_count < 2 then (store_key, store_key, true)
    else if user_count = 2 then (store_key, store_key, true)
    else
      let lookup_msgs := truncate_messages_to_nth_user messages (user_count - 1)
      let lookup_key := hash_key digest (lookup_msgs.map msgPart) client_identifier
      (lookup_key, store_key, false)

example :
    get_conversation_keys id
      [⟨"user", "Hi"⟩, ⟨"assistant", "hello"⟩, ⟨"user", "how are you"⟩,
       ⟨"assistant", "fine"⟩, ⟨"user", "tell me more"⟩] "" =
      ("user:hi|assistant:hello|user:how are you",
       "user:hi|assistant:hello|user:how are you|assistant:fine|user:tell me more",
       false) := by
  decide

example :
    get_conversation_keys id [⟨"user", "Hi"⟩, ⟨"assistant", "hello"⟩] "cid" =
      ("cid|user:hi", "cid|user:hi", true) := by
  decide

example :
    get_conversation_keys id [⟨"assistant", "hello"⟩] "cid" = ("cid|", "cid|", true) := by
  decide

example : get_conversation_keys id [] "cid" = ("cid:empty", "cid:empty", true) := by
  decide

/-! ### Facts about the truncation helper -/

theorem userCount_cons (m : Msg) (L : List Msg) :
    userCount (m :: L) = userCount L + (if m.role = "user" then 1 else 0) := by
  simp [userCount, List.countP_cons]

theorem getLast?_cons_eq (m x : Msg) (P : List Msg) (h : P.getLast? = some x) :
    (m :: P).getLast? = some x := by
  cases P with
  | nil => simp at h
  | cons b t => rw [List.getLast?_cons_cons]; exact h

theorem userCount_pos_of_last_user : ∀ (L : List Msg) (m : Msg),
    L.getLast? = some m → m.role = "user" → 1 ≤ userCount L
  | [], m, h, _ => by simp at h
  | a :: t, m, h, hr => by
    cases t with
    | nil =>
      simp only [List.getLast?_singleton, Option.some.injEq] at h
      subst h
      simp [userCount_cons, hr]
    | cons b t2 =>
      rw [List.getLast?_cons_cons] at h
      have ih := userCount_pos_of_last_user (b :: t2) m h hr
      have hc := userCount_cons a (b :: t2)
      omega

theorem truncGo_cons (k : Nat) (m : Msg) (rest : List Msg) :
    truncGo k (m :: rest) =
      if m.role = "user" then
        if k ≤ 1 then some [m] else (truncGo (k - 1) rest).map (m :: ·)
      else (truncGo k rest).map (m :: ·) := rfl

theorem truncGo_none : ∀ (L : List Msg) (k : Nat), userCount L < k → truncGo k L = none
  | [], _, _ => rfl
  | m :: rest, k, h => by
    have hc := userCount_cons m rest
    by_cases hm : m.role = "user"
    · rw [hm, if_pos rfl] at hc
      have hk : ¬ k ≤ 1 := by omega
      rw [truncGo_cons, if_pos hm, if_neg hk, truncGo_none rest (k - 1) (by omega)]
      rfl
    · rw [if_neg hm] at hc
      rw [truncGo_cons, if_neg hm, truncGo_none rest k (by omega)]
      rfl

theorem truncGo_spec : ∀ (L : List Msg) (k : Nat), 1 ≤ k → k ≤ userCount L →
    ∃ P, truncGo k L = some P ∧ (∃ rest, P ++ rest = L) ∧ userCount P = k ∧
      ∃ m, P.getLast? = some m ∧ m.role = "user"
  | [], k, h1, h2 => by
    exfalso
    have : userCount ([] : List Msg) = 0 := rfl
    omega
  | a :: rest, k, h1, h2 => by
    have hc := userCount_cons a rest
    by_cases hm : a.role = "user"
    · rw [hm, if_pos rfl] at hc
      by_cases hk : k ≤ 1
      · refine ⟨[a], ?_, ⟨rest, rfl⟩, ?_, a, List.getLast?_singleton a, hm⟩
        · rw [truncGo_cons, if_pos hm, if_pos hk]
        · have hk1 : k = 1 := by omega
          subst hk1
          simp [userCount, List.countP_cons, hm]
      · obtain ⟨P, hgo, ⟨r2, hr2⟩, hcnt, m, hlast, hrole⟩ :=
          truncGo_spec rest (k - 1) (by omega) (by omega)
        refine ⟨a :: P, ?_, ⟨r2, by rw [← hr2]; rfl⟩, ?_, m, getLast?_cons_eq a m P hlast, hrole⟩
        · rw [truncGo_cons, if_pos hm, if_neg hk, hgo]
          rfl
        · rw [userCount_cons, hcnt, if_pos hm]
          omega
    · rw [if_neg hm] at hc
      obtain ⟨P, hgo, ⟨r2, hr2⟩, hcnt, m, hlast, hrole⟩ :=
        truncGo_spec rest k h1 (by omega)
      refine ⟨a :: P, ?_, ⟨r2, by rw [← hr2]; rfl⟩, ?_, m, getLast?_cons_eq a m P hlast, hrole⟩
      · rw [truncGo_cons, if_neg hm, hgo]
        rfl
      · rw [userCount_cons, hcnt, if_neg hm]
        omega

theorem truncGo_fix : ∀ (L : List Msg) (k : Nat), userCount L = k →
    (∃ m, L.getLast? = some m ∧ m.role = "user") → truncGo k L = some L
  | [], k, _, hl => by
    obtain ⟨m, hm, _⟩ := hl
    simp at hm
  | a :: rest, k, hc, hl => by
    obtain ⟨m, hm, hrole⟩ := hl
    have hcc := userCount_cons a rest
    cases rest with
    | nil =>
      have ham : a = m := by simpa using hm
      have hra : a.role = "user" := by rw [ham]; exact hrole
      have h1 : userCount [a] = 1 := by simp [userCount, List.countP_cons, hra]
      have hk : k = 1 := by omega
      subst hk
      rw [truncGo_cons, if_pos hra, if_pos (by omega : 1 ≤ 1)]
    | cons b t =>
      rw [List.getLast?_cons_cons] at hm
      have hpos := userCount_pos_of_last_user (b :: t) m hm hrole
      by_cases ha : a.role = "user"
      · rw [ha, if_pos rfl] at hcc
        have hk : ¬ k ≤ 1 := by omega
        have ih := truncGo_fix (b :: t) (k - 1) (by omega) ⟨m, hm, hrole⟩
        rw [truncGo_cons, if_pos ha, if_neg hk, ih]
        rfl
      · rw [if_neg ha] at hcc
        have ih := truncGo_fix (b :: t) k (by omega) ⟨m, hm, hrole⟩
        rw [truncGo_cons, if_neg ha, ih]
        rfl

/-! ### Branch facts about `get_conversation_keys` -/

theorem userCount_nil : userCount [] = 0 := rfl

theorem store_component (digest : String → String) (messages : List Msg)
    (client_identifier : String) (hne : messages ≠ []) :
    (get_conversation_keys digest messages client_identifier).2.1 =
      hash_key digest
        ((truncate_messages_to_nth_user messages (userCount messages)).map msgPart)
        client_identifier := by
  unfold get_conversation_keys
  rw [if_neg hne]
  by_cases h2 : userCount messages < 2
  · simp only [if_pos h2]
  · rw [if_neg h2]
    by_cases h3 : userCount messages = 2
    · simp only [if_pos h3]
    · simp only [if_neg h3]

theorem lookup_component (digest : String → String) (messages : List Msg)
    (client_identifier : String) (h3 : 3 ≤ userCount messages) :
    (get_conversation_keys digest messages client_identifier).1 =
      hash_key digest
        ((truncate_messages_to_nth_user messages (userCount messages - 1)).map msgPart)
        client_identifier := by
  have hne : messages ≠ [] := by
    intro h
    rw [h, userCount_nil] at h3
    omega
  unfold get_conversation_keys
  rw [if_neg hne, if_neg (by omega : ¬ userCount messages < 2),
    if_neg (by omega : ¬ userCount messages = 2)]

theorem force_new_component (digest : String → String) (messages : List Msg)
    (client_identifier : String) (hne : messages ≠ []) :
    (get_conversation_keys digest messages client_identifier).2.2 =
      decide (userCount messages < 3) := by
  unfold get_conversation_keys
  rw [if_neg hne]
  by_cases h2 : userCount messages < 2
  · simp only [if_pos h2]
    simp
    omega
  · rw [if_neg h2]
    by_cases h3 : userCount messages = 2
    · simp only [if_pos h3]
      simp
      omega
    · simp only [if_neg h3]
      simp
      omega

/-- Claim C1: for every non-empty message list, `get_conversation_keys`
returns `force_new = true` exactly when fewer than 3 messages have role
"user"; and with at least 3 user messages it returns `force_new = false`,
`lookup_key` the hash of the messages up to and including the
second-to-last user message, and `store_key` the hash of the messages up
to and including the last user message. -/
theorem conversation_keys_force_new_policy (digest : String → String) (messages : List Msg)
    (client_identifier : String) (hne : messages ≠ []) :
    ((get_conversation_keys digest messages client_identifier).2.2 =
      decide (userCount messages < 3)) ∧
    (3 ≤ userCount messages →
      ∃ lookPre storePre : List Msg,
        (∃ rest, lookPre ++ rest = messages) ∧ userCount lookPre = userCount messages - 1 ∧
        (∃ m, lookPre.getLast? = some m ∧ m.role = "user") ∧
        (∃ rest, storePre ++ rest = messages) ∧ userCount storePre = userCount messages ∧
        (∃ m, storePre.getLast? = some m ∧ m.role = "user") ∧
        (get_conversation_keys digest messages client_identifier).1 =
          hash_key digest (lookPre.map msgPart) client_identifier ∧
        (get_conversation_keys digest messages client_identifier).2.1 =
          hash_key digest (storePre.map msgPart) client_identifier ∧
        (get_conversation_keys digest messages client_identifier).2.2 = false) := by
  refine ⟨force_new_component digest messages client_identifier hne, fun h3 => ?_⟩
  obtain ⟨Pl, hgoL, hprL, hcntL, hlastL⟩ :=
    truncGo_spec messages (userCount messages - 1) (by omega) (by omega)
  obtain ⟨Ps, hgoS, hprS, hcntS, hlastS⟩ :=
    truncGo_spec messages (userCount messages) (by omega) (le_refl _)
  have hTl : truncate_messages_to_nth_user messages (userCount messages - 1) = Pl := by
    unfold truncate_messages_to_nth_user
    rw [if_neg (by omega : ¬ userCount messages - 1 = 0), hgoL]
    rfl
  have hTs : truncate_messages_to_nth_user messages (userCount messages) = Ps := by
    unfold truncate_messages_to_nth_user
    rw [if_neg (by omega : ¬ userCount messages = 0), hgoS]
    rfl
  refine ⟨Pl, Ps, hprL, hcntL, hlastL, hprS, hcntS, hlastS, ?_, ?_, ?_⟩
  · rw [lookup_component digest messages client_identifier h3, hTl]
  · rw [store_component digest messages client_identifier hne, hTs]
  · rw [force_new_component digest messages client_identifier hne]
    simp only [decide_eq_false_iff_not]
    omega

theorem conversation_keys_force_new_policy_witness :
    ([⟨"user", "hi"⟩, ⟨"assistant", "hello"⟩, ⟨"user", "how are you"⟩,
      ⟨"assistant", "fine"⟩, ⟨"user", "tell me more"⟩] ≠ ([] : List Msg)) ∧
    (get_conversation_keys id
      [⟨"user", "hi"⟩, ⟨"assistant", "hello"⟩, ⟨"user", "how are you"⟩,
       ⟨"assistant", "fine"⟩, ⟨"user", "tell me more"⟩] "").2.2 =
      decide (userCount
        [⟨"user", "hi"⟩, ⟨"assistant", "hello"⟩, ⟨"user", "how are you"⟩,
         ⟨"assistant", "fine"⟩, ⟨"user", "tell me more"⟩] < 3) :=
  ⟨by decide,
   (conversation_keys_force_new_policy id
     [⟨"user", "hi"⟩, ⟨"assistant", "hello"⟩, ⟨"user", "how are you"⟩,
      ⟨"assistant", "fine"⟩, ⟨"user", "tell me more"⟩] "" (by decide)).1⟩

/-- Claim C2: cache continuity. For every history with at least 3 user
messages and every client identifier, the `lookup_key` returned for `H`
equals the `store_key` returned for `H` truncated to end at its
second-to-last user message. -/
theorem cache_continuity (digest : String → String) (H : List Msg)
    (client_identifier : String) (h3 : 3 ≤ userCount H) :
    (get_conversation_keys digest H client_identifier).1 =
      (get_conversation_keys digest
        (truncate_messages_to_nth_user H (userCount H - 1)) client_identifier).2.1 := by
  obtain ⟨P, hgo, _, hcnt, hlast⟩ :=
    truncGo_spec H (userCount H - 1) (by omega) (by omega)
  have hT : truncate_messages_to_nth_user H (userCount H - 1) = P := by
    unfold truncate_messages_to_nth_user
    rw [if_neg (by omega : ¬ userCount H - 1 = 0), hgo]
    rfl
  have hPne : P ≠ [] := by
    intro h
    rw [h, userCount_nil] at hcnt
    omega
  have hfix : truncate_messages_to_nth_user P (userCount P) = P := by
    unfold truncate_messages_to_nth_user
    rw [if_neg (by omega : ¬ userCount P = 0), truncGo_fix P (userCount P) rfl hlast]
    rfl
  rw [lookup_component digest H client_identifier h3, hT,
    store_component digest P client_identifier hPne, hfix]

theorem cache_continuity_witness :
    3 ≤ userCount
      [⟨"user", "hi"⟩, ⟨"assistant", "hello"⟩, ⟨"user", "how are you"⟩,
       ⟨"assistant", "fine"⟩, ⟨"user", "tell me more"⟩] ∧
    (get_conversation_keys id
      [⟨"user", "hi"⟩, ⟨"assistant", "hello"⟩, ⟨"user", "how are you"⟩,
       ⟨"assistant", "fine"⟩, ⟨"user", "tell me more"⟩] "cid").1 =
      (get_conversation_keys id
        (truncate_messages_to_nth_user
          [⟨"user", "hi"⟩, ⟨"assistant", "hello"⟩, ⟨"user", "how are you"⟩,
           ⟨"assistant", "fine"⟩, ⟨"user", "tell me more"⟩]
          (userCount
            [⟨"user", "hi"⟩, ⟨"assistant", "hello"⟩, ⟨"user", "how are you"⟩,
             ⟨"assistant", "fine"⟩, ⟨"user", "tell me more"⟩] - 1)) "cid").2.1 :=
  ⟨by decide,
   cache_continuity id
     [⟨"user", "hi"⟩, ⟨"assistant", "hello"⟩, ⟨"user", "how are you"⟩,
      ⟨"assistant", "fine"⟩, ⟨"user", "tell me more"⟩] "cid" (by decide)⟩

/-- Claim C10: a non-empty message list with no "user"-role message gets
`force_new = true` and `lookup_key = store_key =` the hash of the empty
part list (the digest of the empty joined string, prefixed by the client
identifier when one is given), while the sentinel "empty" key is what the
empty message list gets. -/
theorem no_user_messages_keys (digest : String → String) (messages : List Msg)
    (client_identifier : String) (hne : messages ≠ []) (h0 : userCount messages = 0) :
    get_conversation_keys digest messages client_identifier =
      (hash_key digest [] client_identifier, hash_key digest [] client_identifier, true) ∧
    hash_key digest [] client_identifier =
      digest (if client_identifier ≠ "" then client_identifier ++ "|" else "") ∧
    get_conversation_keys digest [] client_identifier =
      ((if client_identifier ≠ "" then client_identifier ++ ":empty" else "empty"),
       (if client_identifier ≠ "" then client_identifier ++ ":empty" else "empty"), true) := by
  have hT0 : truncate_messages_to_nth_user messages 0 = [] := by
    unfold truncate_messages_to_nth_user
    rw [if_pos rfl]
  refine ⟨?_, ?_, ?_⟩
  · unfold get_conversation_keys
    rw [if_neg hne]
    simp only [h0, hT0, List.map_nil]
    rw [if_pos (by omega : (0 : Nat) < 2)]
  · by_cases hci : client_identifier ≠ "" <;>
      simp [hash_key, hci, String.intercalate]
  · unfold get_conversation_keys
    rw [if_pos rfl]

theorem no_user_messages_keys_witness :
    ([⟨"assistant", "hello"⟩] ≠ ([] : List Msg)) ∧
    userCount [⟨"assistant", "hello"⟩] = 0 ∧
    get_conversation_keys id [⟨"assistant", "hello"⟩] "cid" =
      (hash_key id [] "cid", hash_key id [] "cid", true) :=
  ⟨by decide, by decide,
   (no_user_messages_keys id [⟨"assistant", "hello"⟩] "cid" (by decide) (by decide)).1⟩

/-! ## core/browser_failure_tracker.py -/

structure TrackerState where
  failureCount : Nat
  maxFailures : Nat
deriving DecidableEq, Repr

/-- The `SystemExit` payload raised by `record_failure`: the counts
interpolated into the exit message. -/
structure TrackerExit where
  currentCount : Nat
  maxFailures : Nat
deriving DecidableEq, Repr

/-- Embeds `BrowserFailureTracker.record_failure`: increment the counter,
raise `SystemExit` when it exceeds the ceiling, return the running count
otherwise. -/
def record_failure (s : TrackerState) : Except TrackerExit (Nat × TrackerState) :=
  let current := s.failureCount + 1
  let s2 : TrackerState := { s with failureCount := current }
  if current > s.maxFailures then .error ⟨current, s.maxFailures⟩
  else .ok (current, s2)

/-- Embeds `BrowserFailureTracker.reset`. -/
def tracker_reset (s : TrackerState) : TrackerState :=
  { s with failureCount := 0 }

/-- Embeds `BrowserFailureTracker.get_count`. -/
def tracker_get_count (s : TrackerState) : Nat :=
  s.failureCount

/-- The fresh singleton state: `_failure_count = 0`, `_max_failures = 5`. -/
def trackerInit : TrackerState := ⟨0, 5⟩

deriving instance DecidableEq for Except

/-- Runs `n` sequential `record_failure` calls, collecting the returned
running counts; stops at the first raised `SystemExit`. -/
def recordFailureRun : Nat → TrackerState → Except TrackerExit (List Nat × TrackerState)
  | 0, s => .ok ([], s)
  | n + 1, s =>
    match record_failure s with
    | .error e => .error e
    | .ok (c, s2) =>
      match recordFailureRun n s2 with
      | .error e => .error e
      | .ok (cs, s3) => .ok (c :: cs, s3)

/-- The running counts `c+1, c+2, ..., c+k`. -/
def countsFrom (c : Nat) : Nat → List Nat
  | 0 => []
  | k + 1 => (c + 1) :: countsFrom (c + 1) k

theorem recordFailureRun_ok : ∀ (k c m : Nat), c + k ≤ m →
    recordFailureRun k ⟨c, m⟩ = .ok (countsFrom c k, ⟨c + k, m⟩)
  | 0, c, m, _ => rfl
  | k + 1, c, m, h => by
    have hc : ¬ c + 1 > m := by omega
    rw [recordFailureRun]
    simp only [record_failure, if_neg hc]
    rw [recordFailureRun_ok k (c + 1) m (by omega)]
    simp only [countsFrom]
    have : c + 1 + k = c + (k + 1) := by omega
    rw [this]

theorem record_failure_ok (c m : Nat) (h : c + 1 ≤ m) :
    record_failure ⟨c, m⟩ = .ok (c + 1, ⟨c + 1, m⟩) := by
  simp only [record_failure]
  rw [if_neg (by omega : ¬ c + 1 > m)]

theorem recordFailureRun_trips : ∀ (k c m : Nat), c + k = m →
    recordFailureRun (k + 1) ⟨c, m⟩ = .error ⟨m + 1, m⟩
  | 0, c, m, h => by
    subst h
    simp only [recordFailureRun, record_failure]
    rw [if_pos (by omega : c + 1 > c + 0)]
  | k + 1, c, m, h => by
    have ht := recordFailureRun_trips k (c + 1) m (by omega)
    rw [recordFailureRun, record_failure_ok c m (by omega)]
    show (match recordFailureRun (k + 1) (⟨c + 1, m⟩ : TrackerState) with
      | Except.error e => Except.error e
      | Except.ok (cs, s3) => Except.ok ((c + 1) :: cs, s3)) =
      Except.error ⟨m + 1, m⟩
    rw [ht]

/-- Claim C3: from a freshly reset counter with ceiling `max_count`, the
first `max_count` sequential `record_failure` calls return the running
counts `1..max_count` without raising; the `(max_count + 1)`-th call
raises `SystemExit` instead of returning. -/
theorem record_failure_circuit_trips (s : TrackerState) :
    recordFailureRun s.maxFailures (tracker_reset s) =
      .ok (countsFrom 0 s.maxFailures, ⟨s.maxFailures, s.maxFailures⟩) ∧
    recordFailureRun (s.maxFailures + 1) (tracker_reset s) =
      .error ⟨s.maxFailures + 1, s.maxFailures⟩ := by
  constructor
  · have := recordFailureRun_ok s.maxFailures 0 s.maxFailures (by omega)
    simpa [tracker_reset] using this
  · have := recordFailureRun_trips s.maxFailures 0 s.maxFailures (by omega)
    simpa [tracker_reset] using this

example :
    recordFailureRun 5 trackerInit = .ok ([1, 2, 3, 4, 5], ⟨5, 5⟩) ∧
    recordFailureRun 6 trackerInit = .error ⟨6, 5⟩ := by
  decide

/-! ## core/gemini_format.py — GeminiErrorConverter -/

/-- The inner `{code, message, status, details?}` object. -/
structure GeminiErrorBody where
  code : Nat
  message : String
  status : String
  details : Option (List (String × String))
deriving DecidableEq, Repr

/-- The `{error: {...}}` envelope returned by `create_error_response`. -/
structure GeminiErrorResponse where
  error : GeminiErrorBody
deriving DecidableEq, Repr

/-- Embeds `GeminiErrorConverter.STATUS_MAP`. -/
def STATUS_MAP : List (Nat × String) :=
  [(400, "INVALID_ARGUMENT"),
   (401, "UNAUTHENTICATED"),
   (403, "PERMISSION_DENIED"),
   (404, "NOT_FOUND"),
   (429, "RESOURCE_EXHAUSTED"),
   (500, "INTERNAL"),
   (503, "UNAVAILABLE"),
   (504, "DEADLINE_EXCEEDED")]

/-- Embeds `GeminiErrorConverter.get_status_for_code`:
`STATUS_MAP.get(status_code, "UNKNOWN")`. -/
def get_status_for_code (status_code : Nat) : String :=
  (STATUS_MAP.lookup status_code).getD "UNKNOWN"

/-- Embeds `GeminiErrorConverter.create_error_response`; `details` is
attached only when the passed dict is truthy (present and non-empty). -/
def create_error_response (status_code : Nat) (message : String)
    (details : Option (List (String × String))) : GeminiErrorResponse :=
  let status := get_status_for_code status_code
  let base : GeminiErrorBody := ⟨status_code, message, status, none⟩
  match details with
  | some d => if d ≠ [] then ⟨{ base with details := some d }⟩ else ⟨base⟩
  | none => ⟨base⟩

/-- Claim C9: `create_error_response` always returns the
`{error: {code, message, status}}` envelope with `details` present only
when supplied, and the status text follows the fixed HTTP-status
taxonomy with `UNKNOWN` for every unmapped code. -/
theorem error_response_taxonomy (status_code : Nat) (message : String)
    (details : Option (List (String × String))) :
    ((create_error_response status_code message details).error.code = status_code ∧
     (create_error_response status_code message details).error.message = message ∧
     (create_error_response status_code message details).error.status =
       get_status_for_code status_code ∧
     ((create_error_response status_code message details).error.details ≠ none →
       (create_error_response status_code message details).error.details = details)) ∧
    get_status_for_code 400 = "INVALID_ARGUMENT" ∧
    get_status_for_code 401 = "UNAUTHENTICATED" ∧
    get_status_for_code 403 = "PERMISSION_DENIED" ∧
    get_status_for_code 404 = "NOT_FOUND" ∧
    get_status_for_code 429 = "RESOURCE_EXHAUSTED" ∧
    get_status_for_code 500 = "INTERNAL" ∧
    get_status_for_code 503 = "UNAVAILABLE" ∧
    get_status_for_code 504 = "DEADLINE_EXCEEDED" ∧
    (status_code ∉ [400, 401, 403, 404, 429, 500, 503, 504] →
      get_status_for_code status_code = "UNKNOWN") := by
  refine ⟨⟨?_, ?_, ?_, ?_⟩, by decide, by decide, by decide, by decide, by decide,
    by decide, by decide, by decide, ?_⟩
  · cases details with
    | none => rfl
    | some d =>
      by_cases hd : d ≠ []
      · simp [create_error_response, hd]
      · simp [create_error_response, hd]
  · cases details with
    | none => rfl
    | some d =>
      by_cases hd : d ≠ []
      · simp [create_error_response, hd]
      · simp [create_error_response, hd]
  · cases details with
    | none => rfl
    | some d =>
      by_cases hd : d ≠ []
      · simp [create_error_response, hd]
      · simp [create_error_response, hd]
  · cases details with
    | none => intro h; exact absurd rfl h
    | some d =>
      by_cases hd : d ≠ []
      · intro _
        simp [create_error_response, hd]
      · intro h
        exfalso
        apply h
        simp [create_error_response, hd]
  · intro hmem
    simp only [List.mem_cons, List.not_mem_nil, or_false, not_or] at hmem
    obtain ⟨h1, h2, h3, h4, h5, h6, h7, h8⟩ := hmem
    simp [get_status_for_code, STATUS_MAP, List.lookup,
      show (status_code == 400) = false by simp [h1],
      show (status_code == 401) = false by simp [h2],
      show (status_code == 403) = false by simp [h3],
      show (status_code == 404) = false by simp [h4],
      show (status_code == 429) = false by simp [h5],
      show (status_code == 500) = false by simp [h6],
      show (status_code == 503) = false by simp [h7],
      show (status_code == 504) = false by simp [h8]]

theorem error_response_taxonomy_witness :
    (create_error_response 418 "teapot" (some [("k", "v")])).error =
      ⟨418, "teapot", "UNKNOWN", some [("k", "v")]⟩ ∧
    (418 : Nat) ∉ [400, 401, 403, 404, 429, 500, 503, 504] ∧
    get_status_for_code 418 = "UNKNOWN" := by
  refine ⟨by decide, by decide,
    (error_response_taxonomy 418 "teapot" (some [("k", "v")])).2.2.2.2.2.2.2.2.2 (by decide)⟩

/-! ## core/google_api.py — make_request_with_jwt_retry -/

/-- One request as issued to the HTTP client: the method, the URL, the
bearer token placed in the headers by `get_common_headers`, and the
remaining `**kwargs` passed through unchanged (modelled opaquely). -/
structure IssuedRequest where
  method : String
  url : String
  token : String
  kwargs : String
deriving DecidableEq, Repr

/-- An upstream HTTP response: status code plus opaque body. -/
structure HttpResponse where
  status : Nat
  body : String
deriving DecidableEq, Repr

/-- Model of Python `str.upper()` at ASCII level (one character). -/
def upperChar (c : Char) : Char :=
  if 97 ≤ c.toNat && c.toNat ≤ 122 then Char.ofNat (c.toNat - 32) else c

/-- Model of Python `method.upper()`. -/
def methodUpper (s : String) : String :=
  String.mk (s.data.map upperChar)

/-- Embeds `make_request_with_jwt_retry`. `get_jwt` is the token source
(`account_mgr.get_jwt`, indexed by acquisition order) and `client` the
HTTP client (indexed by issue order, since resending the same request can
get a different response). Returns the final response together with the
requests that were issued; a bad method raises `ValueError`. -/
def make_request_with_jwt_retry (get_jwt : Nat → String)
    (client : Nat → IssuedRequest → HttpResponse)
    (method url kwargs : String) : Except String (HttpResponse × List IssuedRequest) :=
  let jwt := get_jwt 0
  if methodUpper method = "GET" ∨ methodUpper method = "POST" then
    let req0 : IssuedRequest := ⟨method, url, jwt, kwargs⟩
    let resp0 := client 0 req0
    if resp0.status = 401 then
      let jwt2 := get_jwt 1
      let req1 : IssuedRequest := ⟨method, url, jwt2, kwargs⟩
      let resp1 := client 1 req1
      .ok (resp1, [req0, req1])
    else .ok (resp0, [req0])
  else .error ("Unsupported HTTP method: " ++ method)

/-- Claim C6: `make_request_with_jwt_retry` always attaches a freshly
acquired token; on a 401 it acquires a new token and reissues the
identical request exactly once; a second 401 response is returned to the
caller unmodified. -/
theorem jwt_retry_once (get_jwt : Nat → String)
    (client : Nat → IssuedRequest → HttpResponse) (method url kwargs : String)
    (hm : methodUpper method = "GET" ∨ methodUpper method = "POST") :
    ((client 0 ⟨method, url, get_jwt 0, kwargs⟩).status ≠ 401 →
      make_request_with_jwt_retry get_jwt client method url kwargs =
        .ok (client 0 ⟨method, url, get_jwt 0, kwargs⟩,
             [⟨method, url, get_jwt 0, kwargs⟩])) ∧
    ((client 0 ⟨method, url, get_jwt 0, kwargs⟩).status = 401 →
      make_request_with_jwt_retry get_jwt client method url kwargs =
        .ok (client 1 ⟨method, url, get_jwt 1, kwargs⟩,
             [⟨method, url, get_jwt 0, kwargs⟩, ⟨method, url, get_jwt 1, kwargs⟩])) := by
  constructor
  · intro h401
    unfold make_request_with_jwt_retry
    rw [if_pos hm, if_neg h401]
  · intro h401
    unfold make_request_with_jwt_retry
    rw [if_pos hm, if_pos h401]

theorem jwt_retry_once_witness :
    (methodUpper "get" = "GET" ∨ methodUpper "get" = "POST") ∧
    make_request_with_jwt_retry (fun n => toString n)
        (fun _ _ => ⟨401, "expired"⟩) "get" "u" "kw" =
      .ok (⟨401, "expired"⟩,
           [⟨"get", "u", "0", "kw"⟩, ⟨"get", "u", "1", "kw"⟩]) :=
  ⟨by decide,
   (jwt_retry_once (fun n => toString n) (fun _ _ => ⟨401, "expired"⟩)
     "get" "u" "kw" (by decide)).2 (by decide)⟩

/-! ## core/google_api.py — download_image_with_jwt -/

/-- Outcome of one download attempt, as seen by the `try` body:
the awaited request either returns the payload bytes, times out
(`asyncio.TimeoutError`), fails with an `httpx.HTTPError`, or raises
some other exception. -/
inductive AttemptOutcome where
  | success (payload : String)
  | timeout
  | httpError (name : String)
  | otherError (name : String)
deriving DecidableEq, Repr

/-- What `download_image_with_jwt` does overall: return the payload,
raise an `HTTPException(status, detail)`, or re-raise an unexpected
exception. -/
inductive DownloadOutcome where
  | payload (data : String)
  | httpException (status : Nat) (detail : String)
  | reraised (name : String)
deriving DecidableEq, Repr

/-- The per-attempt timeout passed to `asyncio.wait_for` (seconds). -/
def download_timeout_seconds : Nat := 180

/-- The retry loop of `download_image_with_jwt`, from attempt index
`attempt` with `fuel` loop iterations left; returns the outcome and the
list of back-off sleeps (`await asyncio.sleep(2 ** attempt)`) performed
between attempts, in order. -/
def downloadLoop (outcomes : Nat → AttemptOutcome) (max_retries : Nat) :
    Nat → Nat → DownloadOutcome × List Nat
  | 0, _ => (.httpException 500 "Image download failed unexpectedly", [])
  | fuel + 1, attempt =>
    match outcomes attempt with
    | .success p => (.payload p, [])
    | .timeout =>
      if attempt = max_retries - 1 then
        (.httpException 504 ("Image download timeout after " ++ toString max_retries ++ " attempts"), [])
      else
        let r := downloadLoop outcomes max_retries fuel (attempt + 1)
        (r.1, 2 ^ attempt :: r.2)
    | .httpError e =>
      if attempt = max_retries - 1 then
        (.httpException 500 ("Image download failed: " ++ e), [])
      else
        let r := downloadLoop outcomes max_retries fuel (attempt + 1)
        (r.1, 2 ^ attempt :: r.2)
    | .otherError e => (.reraised e, [])

/-- Embeds `download_image_with_jwt` (the `for attempt in range(max_retries)`
loop; `max_retries` defaults to 3 at the call site). -/
def download_image_with_jwt (outcomes : Nat → AttemptOutcome) (max_retries : Nat) :
    DownloadOutcome × List Nat :=
  downloadLoop outcomes max_retries max_retries 0

/-- Claim C4 at the claimed scenario (`max_retries = 3`): two timeouts
then a success return the payload, exhausting all three attempts on
timeout raises the typed 504 error, and the per-attempt timeout constant
is 180 seconds — but the sleeps between attempts are `2 ** attempt` =
1s then 2s, not the 2s and 4s the claim (and the code's own inline
comment) state. -/
theorem download_backoff_divergence :
    download_image_with_jwt
        (fun n => if n < 2 then .timeout else .success "IMG") 3 =
      (.payload "IMG", [1, 2]) ∧
    download_image_with_jwt (fun _ => .timeout) 3 =
      (.httpException 504 "Image download timeout after 3 attempts", [1, 2]) ∧
    download_timeout_seconds = 180 ∧
    [1, 2] ≠ [2, 4] := by
  refine ⟨by decide, by decide, rfl, by decide⟩

/-! ## core/gemini_format.py — GeminiResponseConverter -/

/-- The mutable counters of a `GeminiResponseConverter`, plus its fixed
identity fields. -/
structure Converter where
  model_version : String
  response_id : String
  prompt_token_count : Nat
  candidates_token_count : Nat
  thoughts_token_count : Nat
deriving DecidableEq, Repr

/-- One part dict of a streamed candidate: optional `text`, the
`thought: True` marker, optional `thoughtSignature`, optional
`inlineData`. -/
structure ChunkPart where
  text : Option String
  thought : Bool
  thoughtSignature : Option String
  inlineData : Option (String × String)
deriving DecidableEq, Repr

/-- The `usageMetadata` dict built by `_build_usage_metadata`
(`candidatesTokenCount` / `thoughtsTokenCount` only appear when
positive; `promptTokensDetails` always carries the TEXT modality
entry). -/
structure UsageMetadata where
  promptTokenCount : Nat
  totalTokenCount : Nat
  promptTokensDetails : List (String × Nat)
  candidatesTokenCount : Option Nat
  thoughtsTokenCount : Option Nat
deriving DecidableEq, Repr

/-- One streamed chunk envelope (single candidate at index 0 with role
"model"). -/
structure StreamChunk where
  parts : List ChunkPart
  finishReason : Option String
  usageMetadata : UsageMetadata
  modelVersion : String
  responseId : String
deriving DecidableEq, Repr

/-- The arguments of one `create_stream_chunk` call. -/
structure ChunkCall where
  text : Option String
  is_thought : Bool
  inline_data : Option (String × String)
  finish_reason : Option String
  thought_signature : Option String
deriving DecidableEq, Repr

/-- Embeds `GeminiResponseConverter._build_usage_metadata`. -/
def build_usage_metadata (s : Converter) : UsageMetadata :=
  let total := s.prompt_token_count + s.candidates_token_count + s.thoughts_token_count
  { promptTokenCount := s.prompt_token_count
    totalTokenCount := total
    promptTokensDetails := [("TEXT", s.prompt_token_count)]
    candidatesTokenCount :=
      if s.candidates_token_count > 0 then some s.candidates_token_count else none
    thoughtsTokenCount :=
      if s.thoughts_token_count > 0 then some s.thoughts_token_count else none }

/-- Embeds `GeminiResponseConverter.create_stream_chunk`: builds the part
list, updates the token counters when the text is truthy (non-`None` and
non-empty), and wraps everything with `usageMetadata` built from the
updated counters. -/
def create_stream_chunk (s : Converter) (c : ChunkCall) : StreamChunk × Converter :=
  let textParts : List ChunkPart :=
    if c.thought_signature ≠ none ∧ c.text = some "" ∧ c.inline_data = none then
      [⟨some "", false, c.thought_signature, none⟩]
    else
      match c.text with
      | some t => [⟨some t, c.is_thought, none, none⟩]
      | none => []
  let inlineParts : List ChunkPart :=
    match c.inline_data with
    | some d =>
      [⟨none, c.is_thought, if c.is_thought then none else c.thought_signature, some d⟩]
    | none => []
  let parts := textParts ++ inlineParts
  let s2 : Converter :=
    match c.text with
    | some t =>
      if t ≠ "" then
        let token_estimate := t.length / 4 + 1
        if c.is_thought then
          { s with thoughts_token_count := s.thoughts_token_count + token_estimate }
        else
          { s with candidates_token_count := s.candidates_token_count + token_estimate }
      else s
    | none => s
  let finishReason :=
    match c.finish_reason with
    | some fr => if fr ≠ "" then some fr else none
    | none => none
  (⟨parts, finishReason, build_usage_metadata s2, s.model_version, s.response_id⟩, s2)

/-- Runs a sequence of `create_stream_chunk` calls on one converter,
collecting the emitted chunks. -/
def runChunkCalls : Converter → List ChunkCall → List StreamChunk × Converter
  | s, [] => ([], s)
  | s, c :: cs =>
    let r1 := create_stream_chunk s c
    let r2 := runChunkCalls r1.2 cs
    (r1.1 :: r2.1, r2.2)

/-- The converter states after each successive call, in order. -/
def chunkStates : Converter → List ChunkCall → List Converter
  | _, [] => []
  | s, c :: cs =>
    let s2 := (create_stream_chunk s c).2
    s2 :: chunkStates s2 cs

/-- The amount one call adds to the thoughts counter. -/
def thoughtContrib (c : ChunkCall) : Nat :=
  match c.text with
  | some t => if t ≠ "" ∧ c.is_thought then t.length / 4 + 1 else 0
  | none => 0

/-- The amount one call adds to the candidates counter. -/
def candContrib (c : ChunkCall) : Nat :=
  match c.text with
  | some t => if t ≠ "" ∧ ¬ c.is_thought then t.length / 4 + 1 else 0
  | none => 0

theorem create_stream_chunk_step (s : Converter) (c : ChunkCall) :
    (create_stream_chunk s c).2.thoughts_token_count =
      s.thoughts_token_count + thoughtContrib c ∧
    (create_stream_chunk s c).2.candidates_token_count =
      s.candidates_token_count + candContrib c ∧
    (create_stream_chunk s c).2.prompt_token_count = s.prompt_token_count ∧
    (create_stream_chunk s c).2.model_version = s.model_version ∧
    (create_stream_chunk s c).2.response_id = s.response_id ∧
    (create_stream_chunk s c).1.usageMetadata =
      build_usage_metadata (create_stream_chunk s c).2 := by
  cases hct : c.text with
  | none => simp [create_stream_chunk, thoughtContrib, candContrib, hct]
  | some t =>
    by_cases ht : t ≠ ""
    · by_cases hth : c.is_thought <;>
        simp [create_stream_chunk, thoughtContrib, candContrib, hct, ht, hth]
    · simp [create_stream_chunk, thoughtContrib, candContrib, hct, ht]

/-- Claim C7 (amended): over any sequence of `create_stream_chunk` calls,
each call with a non-empty text fragment adds `len(text) // 4 + 1` to the
thoughts counter when flagged as thought and to the candidates counter
otherwise (an emitted empty text fragment adds nothing), the counters
only accumulate (never reset), and every returned chunk carries the
`usageMetadata` built from the counters as updated by its own call. -/
theorem chunk_stream_accumulation : ∀ (calls : List ChunkCall) (s : Converter),
    ((runChunkCalls s calls).2.thoughts_token_count =
       s.thoughts_token_count + (calls.map thoughtContrib).sum) ∧
    ((runChunkCalls s calls).2.candidates_token_count =
       s.candidates_token_count + (calls.map candContrib).sum) ∧
    ((runChunkCalls s calls).2.prompt_token_count = s.prompt_token_count) ∧
    ((runChunkCalls s calls).1.map (·.usageMetadata) =
       (chunkStates s calls).map build_usage_metadata) ∧
    ((runChunkCalls s calls).1.length = calls.length)
  | [], s => by simp [runChunkCalls, chunkStates]
  | c :: cs, s => by
    obtain ⟨h1, h2, h3, _, _, h6⟩ := create_stream_chunk_step s c
    obtain ⟨i1, i2, i3, i4, i5⟩ := chunk_stream_accumulation cs (create_stream_chunk s c).2
    simp only [runChunkCalls, chunkStates, List.map_cons, List.sum_cons, List.length_cons]
    refine ⟨?_, ?_, ?_, ?_, ?_⟩
    · rw [i1, h1]
      omega
    · rw [i2, h2]
      omega
    · rw [i3, h3]
    · rw [h6, i4]
    · rw [i5]

/-- Claim C7, as stated, is false at an emitted empty text fragment: the
chunk carries the part `{"text": ""}` but the candidates counter stays 0
instead of gaining `len("") // 4 + 1 = 1`, because the update is guarded
by Python truthiness (`if text:`). -/
theorem chunk_empty_text_counterexample :
    (create_stream_chunk ⟨"model-x", "resp-1", 0, 0, 0⟩
        ⟨some "", false, none, none, none⟩).1.parts =
      [⟨some "", false, none, none⟩] ∧
    (create_stream_chunk ⟨"model-x", "resp-1", 0, 0, 0⟩
        ⟨some "", false, none, none, none⟩).2.candidates_token_count = 0 ∧
    (0 : Nat) ≠ "".length / 4 + 1 := by
  refine ⟨by decide, by decide, by decide⟩

/-! ## core/login_service.py / core/register_service.py — task run loops

`BaseTask` / `TaskStatus` live in `core/base_task_service.py`, which is
not among the sources; per the spec, a task carries
`status ∈ {Pending, Running, Success, Failed}`, `progress`,
`success_count`, `fail_count`, `results`, and is created Pending.
The `_append_log` mirroring of per-item outcomes into the task log is
not modelled (the claims are about `results` and the counters). -/

inductive TaskStatus where
  | pending
  | running
  | success
  | failed
deriving DecidableEq, Repr

/-- One per-item outcome dict (`{"success": bool, "error": ...}`). -/
structure ItemResult where
  success : Bool
  error : Option String
deriving DecidableEq, Repr

/-- What one worker invocation (`_refresh_one` / `_register_one` run in
the executor) does: return a result dict, or raise. -/
inductive WorkerOutcome where
  | returns (r : ItemResult)
  | raises (exc : String)
deriving DecidableEq, Repr

/-- Modelled from the spec: the `BaseTask` fields used by the run loops
(`core/base_task_service.py` is not among the sources); created Pending
with zeroed counters. -/
structure TaskState where
  status : TaskStatus
  progress : Nat
  success_count : Nat
  fail_count : Nat
  results : List ItemResult
  finished : Bool
deriving DecidableEq, Repr

/-- The `except Exception` guard around the executor call: a raise is
converted into a failed result dict recording the exception text. -/
def itemResult : WorkerOutcome → ItemResult
  | .returns r => r
  | .raises e => ⟨false, some e⟩

/-- One iteration of the run loop: `task.progress += 1`,
`task.results.append(result)`, then bump `success_count` or
`fail_count`. -/
def processItem (t : TaskState) (w : WorkerOutcome) : TaskState :=
  let result := itemResult w
  let t1 := { t with progress := t.progress + 1, results := t.results ++ [result] }
  if result.success then { t1 with success_count := t1.success_count + 1 }
  else { t1 with fail_count := t1.fail_count + 1 }

/-- The whole item loop. -/
def runItems (t : TaskState) (ws : List WorkerOutcome) : TaskState :=
  ws.foldl processItem t

/-- Embeds `LoginService._run_login_async`: mark Running, loop over the
account ids, then set the terminal status from `fail_count`. -/
def run_login_async (worker : String → WorkerOutcome) (account_ids : List String)
    (t : TaskState) : TaskState :=
  let t1 := { t with status := TaskStatus.running }
  let t2 := runItems t1 (account_ids.map worker)
  { t2 with
    status := if t2.fail_count = 0 then TaskStatus.success else TaskStatus.failed
    finished := true }

/-- Embeds `RegisterService._run_register_async`: loop `count` times
(the task is already Running from `start_register`), then set the
terminal status from `fail_count`. -/
def run_register_async (worker : Nat → WorkerOutcome) (count : Nat)
    (t : TaskState) : TaskState :=
  let t2 := runItems t ((List.range count).map worker)
  { t2 with
    status := if t2.fail_count = 0 then TaskStatus.success else TaskStatus.failed
    finished := true }

theorem processItem_fields (t : TaskState) (w : WorkerOutcome) :
    (processItem t w).progress = t.progress + 1 ∧
    (processItem t w).results = t.results ++ [itemResult w] ∧
    (processItem t w).success_count =
      t.success_count + (if (itemResult w).success then 1 else 0) ∧
    (processItem t w).fail_count =
      t.fail_count + (if (itemResult w).success then 0 else 1) ∧
    (processItem t w).status = t.status := by
  by_cases hs : (itemResult w).success <;> simp [processItem, hs]

theorem runItems_spec : ∀ (ws : List WorkerOutcome) (t : TaskState),
    (runItems t ws).progress = t.progress + ws.length ∧
    (runItems t ws).results = t.results ++ ws.map itemResult ∧
    (runItems t ws).success_count =
      t.success_count + (ws.map itemResult).countP (fun r => r.success) ∧
    (runItems t ws).fail_count =
      t.fail_count + (ws.map itemResult).countP (fun r => !r.success) ∧
    (runItems t ws).status = t.status
  | [], t => by simp [runItems]
  | w :: ws, t => by
    obtain ⟨p1, p2, p3, p4, p5⟩ := processItem_fields t w
    obtain ⟨i1, i2, i3, i4, i5⟩ := runItems_spec ws (processItem t w)
    have hr : runItems t (w :: ws) = runItems (processItem t w) ws := rfl
    rw [hr]
    refine ⟨?_, ?_, ?_, ?_, ?_⟩
    · rw [i1, p1]
      simp
      omega
    · rw [i2, p2]
      simp
    · rw [i3, p3]
      by_cases hs : (itemResult w).success <;> simp [List.countP_cons, hs] <;> try omega
    · rw [i4, p4]
      by_cases hs : (itemResult w).success <;> simp [List.countP_cons, hs] <;> try omega
    · rw [i5, p5]

theorem countP_success_split (l : List ItemResult) :
    l.countP (fun r => r.success) + l.countP (fun r => !r.success) = l.length := by
  induction l with
  | nil => rfl
  | cons a t ih => by_cases h : a.success <;> simp [List.countP_cons, h] <;> omega

/-- Claim C8: for every Login or Register task run to completion from a
fresh task: each item contributes exactly one entry to `results` (a
failed item — including one whose worker raised — is recorded and
iteration continues), final `progress` equals the number of items,
`success_count + fail_count = progress`, and the terminal status is
Success iff `fail_count = 0`, otherwise Failed. -/
theorem task_run_loop_invariants (loginWorker : String → WorkerOutcome)
    (account_ids : List String) (registerWorker : Nat → WorkerOutcome) (count : Nat)
    (t : TaskState)
    (hfresh : t.progress = 0 ∧ t.success_count = 0 ∧ t.fail_count = 0 ∧ t.results = []) :
    ((run_login_async loginWorker account_ids t).results =
       (account_ids.map loginWorker).map itemResult ∧
     (run_login_async loginWorker account_ids t).progress = account_ids.length ∧
     (run_login_async loginWorker account_ids t).success_count +
       (run_login_async loginWorker account_ids t).fail_count =
       (run_login_async loginWorker account_ids t).progress ∧
     ((run_login_async loginWorker account_ids t).status = TaskStatus.success ↔
       (run_login_async loginWorker account_ids t).fail_count = 0) ∧
     ((run_login_async loginWorker account_ids t).status = TaskStatus.success ∨
       (run_login_async loginWorker account_ids t).status = TaskStatus.failed)) ∧
    ((run_register_async registerWorker count t).results =
       ((List.range count).map registerWorker).map itemResult ∧
     (run_register_async registerWorker count t).progress = count ∧
     (run_register_async registerWorker count t).success_count +
       (run_register_async registerWorker count t).fail_count =
       (run_register_async registerWorker count t).progress ∧
     ((run_register_async registerWorker count t).status = TaskStatus.success ↔
       (run_register_async registerWorker count t).fail_count = 0) ∧
     ((run_register_async registerWorker count t).status = TaskStatus.success ∨
       (run_register_async registerWorker count t).status = TaskStatus.failed)) := by
  obtain ⟨hp, hs, hf, hr⟩ := hfresh
  constructor
  · obtain ⟨i1, i2, i3, i4, _⟩ :=
      runItems_spec (account_ids.map loginWorker) { t with status := TaskStatus.running }
    have hsplit := countP_success_split ((account_ids.map loginWorker).map itemResult)
    have hlen : ((account_ids.map loginWorker).map itemResult).length = account_ids.length := by
      simp
    refine ⟨?_, ?_, ?_, ?_, ?_⟩
    · simp only [run_login_async, i2]
      rw [hr]
      rfl
    · simp only [run_login_async, i1]
      simp [hp]
    · simp only [run_login_async, i1, i2, i3, i4]
      have ha : ({ t with status := TaskStatus.running } : TaskState).success_count =
        t.success_count := rfl
      have hb : ({ t with status := TaskStatus.running } : TaskState).fail_count =
        t.fail_count := rfl
      have hc : ({ t with status := TaskStatus.running } : TaskState).progress =
        t.progress := rfl
      have hlen2 : (account_ids.map loginWorker).length = account_ids.length := by simp
      rw [ha, hb, hc, hp, hs, hf]
      omega
    · simp only [run_login_async]
      by_cases h0 : (runItems { t with status := TaskStatus.running }
          (account_ids.map loginWorker)).fail_count = 0 <;> simp [h0]
    · simp only [run_login_async]
      by_cases h0 : (runItems { t with status := TaskStatus.running }
          (account_ids.map loginWorker)).fail_count = 0 <;> simp [h0]
  · obtain ⟨i1, i2, i3, i4, _⟩ := runItems_spec ((List.range count).map registerWorker) t
    have hsplit := countP_success_split (((List.range count).map registerWorker).map itemResult)
    have hlen : (((List.range count).map registerWorker).map itemResult).length = count := by
      simp
    refine ⟨?_, ?_, ?_, ?_, ?_⟩
    · simp only [run_register_async, i2]
      rw [hr]
      rfl
    · simp only [run_register_async, i1]
      simp [hp]
    · simp only [run_register_async, i1, i2, i3, i4]
      have hlen2 : ((List.range count).map registerWorker).length = count := by simp
      rw [hp, hs, hf]
      omega
    · simp only [run_register_async]
      by_cases h0 : (runItems t ((List.range count).map registerWorker)).fail_count = 0 <;>
        simp [h0]
    · simp only [run_register_async]
      by_cases h0 : (runItems t ((List.range count).map registerWorker)).fail_count = 0 <;>
        simp [h0]

theorem task_run_loop_invariants_witness :
    ((⟨TaskStatus.pending, 0, 0, 0, [], false⟩ : TaskState).progress = 0 ∧
     (⟨TaskStatus.pending, 0, 0, 0, [], false⟩ : TaskState).success_count = 0 ∧
     (⟨TaskStatus.pending, 0, 0, 0, [], false⟩ : TaskState).fail_count = 0 ∧
     (⟨TaskStatus.pending, 0, 0, 0, [], false⟩ : TaskState).results = []) ∧
    (run_login_async
        (fun i => if i = "a" then .returns ⟨true, none⟩
          else if i = "b" then .returns ⟨false, some "boom"⟩ else .raises "crash")
        ["a", "b", "c"] ⟨TaskStatus.pending, 0, 0, 0, [], false⟩).results =
      ((["a", "b", "c"].map
        (fun i => if i = "a" then WorkerOutcome.returns ⟨true, none⟩
          else if i = "b" then WorkerOutcome.returns ⟨false, some "boom"⟩
          else WorkerOutcome.raises "crash")).map itemResult) :=
  ⟨⟨rfl, rfl, rfl, rfl⟩,
   (task_run_loop_invariants
     (fun i => if i = "a" then .returns ⟨true, none⟩
       else if i = "b" then .returns ⟨false, some "boom"⟩ else .raises "crash")
     ["a", "b", "c"] (fun _ => .returns ⟨true, none⟩) 2
     ⟨TaskStatus.pending, 0, 0, 0, [], false⟩ ⟨rfl, rfl, rfl, rfl⟩).1.1⟩

example :
    run_login_async
        (fun i => if i = "a" then .returns ⟨true, none⟩
          else if i = "b" then .returns ⟨false, some "boom"⟩ else .raises "crash")
        ["a", "b", "c"] ⟨TaskStatus.pending, 0, 0, 0, [], false⟩ =
      ⟨TaskStatus.failed, 3, 1, 2,
       [⟨true, none⟩, ⟨false, some "boom"⟩, ⟨false, some "crash"⟩], true⟩ := by
  decide

/-! ## core/login_service.py / core/register_service.py — start calls

The mutual-exclusion state of one service: the task table
(`self._tasks`, id → status is all the start check reads) and the
current-task marker (`self._current_task_id`). -/

structure ServiceState where
  tasks : List (String × TaskStatus)
  currentTaskId : Option String
deriving DecidableEq, Repr

/-- Embeds `LoginService.start_login`'s check-and-create section (run
under `self._lock`): reject only when the current task exists and is
RUNNING; otherwise create a new task — left in Pending, the `BaseTask`
default per the spec, until the scheduled coroutine flips it — and point
the current-task marker at it. -/
def start_login (s : ServiceState) (newId : String) :
    Except String (ServiceState × String) :=
  let blocked : Bool :=
    match s.currentTaskId with
    | some tid =>
      match s.tasks.lookup tid with
      | some st => st == TaskStatus.running
      | none => false
    | none => false
  if blocked then .error "login task already running"
  else .ok (⟨(newId, TaskStatus.pending) :: s.tasks, some newId⟩, newId)

/-- Embeds `RegisterService.start_register`'s check-and-create section:
reject when `ACCOUNTS_CONFIG` is set or when the current task exists in
PENDING or RUNNING state; otherwise create the new task already marked
RUNNING (the source comments that this closes the pre-scheduling
concurrency window). -/
def start_register (s : ServiceState) (newId : String) (accountsConfigSet : Bool) :
    Except String (ServiceState × String) :=
  if accountsConfigSet then .error "ACCOUNTS_CONFIG is set; register is disabled"
  else
    let blocked : Bool :=
      match s.currentTaskId with
      | some tid =>
        match s.tasks.lookup tid with
        | some st => st == TaskStatus.pending || st == TaskStatus.running
        | none => false
      | none => false
    if blocked then .error "register task already running"
    else .ok (⟨(newId, TaskStatus.running) :: s.tasks, some newId⟩, newId)

/-- Sets a task's status in the table. -/
def setTaskStatus (tasks : List (String × TaskStatus)) (tid : String)
    (st : TaskStatus) : List (String × TaskStatus) :=
  tasks.map (fun p => if p.1 = tid then (p.1, st) else p)

/-- The completion bookkeeping at the end of `_run_login_async`: the
terminal status is written and `self._current_task_id = None`
unconditionally. -/
def finish_login_task (s : ServiceState) (tid : String) (final : TaskStatus) :
    ServiceState :=
  ⟨setTaskStatus s.tasks tid final, none⟩

/-- The completion bookkeeping in `_run_register_async`'s `finally`
block: the terminal status is written and the marker cleared only if it
still points at this task. -/
def finish_register_task (s : ServiceState) (tid : String) (final : TaskStatus) :
    ServiceState :=
  ⟨setTaskStatus s.tasks tid final,
   if s.currentTaskId = some tid then none else s.currentTaskId⟩

/-- Claim C5, as stated, is false for the Login kind: with the current
login task still Pending (exactly the state `start_login` itself
leaves behind before the scheduled coroutine runs), a second
`start_login` does not raise — it succeeds and creates a second task. -/
theorem start_login_pending_counterexample :
    start_login ⟨[], none⟩ "t1" =
      .ok (⟨[("t1", TaskStatus.pending)], some "t1"⟩, "t1") ∧
    start_login ⟨[("t1", TaskStatus.pending)], some "t1"⟩ "t2" =
      .ok (⟨[("t2", TaskStatus.pending), ("t1", TaskStatus.pending)], some "t2"⟩, "t2") := by
  refine ⟨by decide, by decide⟩

/-- Claim C5 (amended): `start_register` fails with the already-running
error exactly while the current register task is Pending or Running,
but `start_login` fails only while the current login task is Running — a
current login task still in Pending does not block a second start. After
the run loop's completion bookkeeping clears the current-task marker, a
subsequent start call of either kind succeeds. -/
theorem start_mutual_exclusion (s : ServiceState) (tid newId : String)
    (st : TaskStatus) (hcur : s.currentTaskId = some tid)
    (hst : s.tasks.lookup tid = some st) :
    ((st = TaskStatus.running →
       start_login s newId = .error "login task already running") ∧
     (st ≠ TaskStatus.running →
       start_login s newId =
         .ok (⟨(newId, TaskStatus.pending) :: s.tasks, some newId⟩, newId))) ∧
    (((st = TaskStatus.pending ∨ st = TaskStatus.running) →
       start_register s newId false = .error "register task already running") ∧
     ((st ≠ TaskStatus.pending ∧ st ≠ TaskStatus.running) →
       start_register s newId false =
         .ok (⟨(newId, TaskStatus.running) :: s.tasks, some newId⟩, newId))) ∧
    (∀ final, start_login (finish_login_task s tid final) newId =
       .ok (⟨(newId, TaskStatus.pending) :: setTaskStatus s.tasks tid final, some newId⟩,
            newId)) ∧
    (∀ final, start_register (finish_register_task s tid final) newId false =
       .ok (⟨(newId, TaskStatus.running) :: setTaskStatus s.tasks tid final, some newId⟩,
            newId)) := by
  refine ⟨⟨?_, ?_⟩, ⟨?_, ?_⟩, ?_, ?_⟩
  · intro h
    subst h
    simp [start_login, hcur, hst]
  · intro h
    simp [start_login, hcur, hst, beq_iff_eq, h]
  · intro h
    rcases h with h | h <;> subst h <;> simp [start_register, hcur, hst]
  · intro h
    simp [start_register, hcur, hst, beq_iff_eq, h.1, h.2]
  · intro final
    simp [start_login, finish_login_task]
  · intro final
    simp [start_register, finish_register_task, hcur]

theorem start_mutual_exclusion_witness :
    ((⟨[("t1", TaskStatus.running)], some "t1"⟩ : ServiceState).currentTaskId = some "t1") ∧
    ((⟨[("t1", TaskStatus.running)], some "t1"⟩ : ServiceState).tasks.lookup "t1" =
      some TaskStatus.running) ∧
    start_login ⟨[("t1", TaskStatus.running)], some "t1"⟩ "t2" =
      .error "login task already running" ∧
    start_register ⟨[("t1", TaskStatus.running)], some "t1"⟩ "t2" false =
      .error "register task already running" ∧
    start_login (finish_login_task ⟨[("t1", TaskStatus.running)], some "t1"⟩ "t1"
        TaskStatus.success) "t2" =
      .ok (⟨[("t2", TaskStatus.pending), ("t1", TaskStatus.success)], some "t2"⟩, "t2") := by
  have h := start_mutual_exclusion ⟨[("t1", TaskStatus.running)], some "t1"⟩ "t1" "t2"
    TaskStatus.running rfl (by decide)
  refine ⟨rfl, by decide, h.1.1 rfl, h.2.1.1 (Or.inr rfl), ?_⟩
  have h5 := h.2.2.1 TaskStatus.success
  simpa [setTaskStatus] using h5
